import Mathlib

/-!
Verification of the policy matching and violation evaluation engine of the
ghascompliance repository (advanced-security/policy-as-code).

The definitions below are a shallow embedding of the Python source:

* glob matching embeds the Python standard library fnmatch module as used on
  POSIX systems, where os.path.normcase is the identity, so matching is
  case-sensitive;
* matchContent embeds Policy.matchContent (ghascompliance/policy.py) and the
  identical Checker.matchContent (ghascompliance/checks/checker.py);
* SeverityLevelEnum embeds ghascompliance/policies/severities.py;
* SEVERITIES is modelled from the spec because ghascompliance/consts.py is
  not part of the sources;
* Policy.* functions embed the Policy class of ghascompliance/policy.py;
* Checker.* functions embed the Checker class of
  ghascompliance/checks/checker.py, whose module does not import Octokit,
  SEVERITIES or LICENSES and whose class does not define _buildSeverityList,
  so the corresponding references are embedded as raised NameError and
  AttributeError values;
* SecretScanningChecker.* embeds ghascompliance/checks/secretscanning.py;
* PolicyState embeds ghascompliance/policies/state.py.

Dates and datetimes are modelled at day granularity as integers (days since
an arbitrary epoch): the source adds whole-day timedeltas to a datetime and
immediately truncates with .date(), so a day-granular model is exact.
Python exceptions are modelled with the Except monad.
-/

/-- Python exceptions raised by the embedded code. -/
inductive PyErr where
  | exception (msg : String)
  | nameError (name : String)
  | attributeError (name : String)
  | typeError
  | valueError
  deriving DecidableEq, Repr

deriving instance DecidableEq for Except

/-- ASCII fragment of the Python str.lower method (all identifiers, severity
labels and patterns handled by the engine are ASCII). -/
def pyLower (s : String) : String :=
  String.mk (s.data.map Char.toLower)

/-- One element of a glob bracket set: a literal character or a range. -/
inductive SetItem where
  | chr (c : Char)
  | rng (a b : Char)
  deriving DecidableEq, Repr

/-- One token of a compiled glob pattern, mirroring fnmatch.translate:
a literal character, the single-character wildcard, the any-sequence
wildcard, or a bracket set with an optional negation flag. -/
inductive GlobTok where
  | lit (c : Char)
  | any
  | star
  | set (neg : Bool) (items : List SetItem)
  deriving DecidableEq, Repr

/-- Parse the body of a glob bracket set up to the closing bracket.
Returns none when the set is unterminated (fnmatch then treats the opening
bracket as a literal character). A range whose upper end would be the
closing bracket is read as two literal characters, as fnmatch does. -/
def parseSetBody : List Char → Option (List SetItem × List Char)
  | [] => none
  | ']' :: rest => some ([], rest)
  | a :: '-' :: b :: rest2 =>
    if b = ']' then some ([SetItem.chr a, SetItem.chr '-'], rest2)
    else
      match parseSetBody rest2 with
      | some (items, r) => some (SetItem.rng a b :: items, r)
      | none => none
  | a :: rest =>
    match parseSetBody rest with
    | some (items, r) => some (SetItem.chr a :: items, r)
    | none => none

/-- Strip the optional leading exclamation mark that negates a bracket set. -/
def splitNeg (cs : List Char) : Bool × List Char :=
  match cs with
  | '!' :: r => (true, r)
  | _ => (false, cs)

/-- A closing bracket placed first inside a set is a literal member. -/
def splitLeadBracket (cs : List Char) : List SetItem × List Char :=
  match cs with
  | ']' :: r => ([SetItem.chr ']'], r)
  | _ => ([], cs)

/-- Parse a glob bracket set after the opening bracket, as in
fnmatch.translate: an optional leading exclamation mark negates the set and
a closing bracket placed first is a literal member. -/
def parseSet (cs : List Char) : Option (Bool × List SetItem × List Char) :=
  match parseSetBody (splitLeadBracket (splitNeg cs).2).2 with
  | some (items, r) =>
    some ((splitNeg cs).1, (splitLeadBracket (splitNeg cs).2).1 ++ items, r)
  | none => none

theorem splitNeg_length (cs : List Char) : (splitNeg cs).2.length ≤ cs.length := by
  unfold splitNeg
  split <;> simp

theorem splitLeadBracket_length (cs : List Char) :
    (splitLeadBracket cs).2.length ≤ cs.length := by
  unfold splitLeadBracket
  split <;> simp

theorem parseSetBody_length :
    ∀ (cs : List Char) (items : List SetItem) (r : List Char),
      parseSetBody cs = some (items, r) → r.length < cs.length := by
  intro cs
  induction cs using parseSetBody.induct with
  | case1 =>
    intro items r h
    simp [parseSetBody] at h
  | case2 rest =>
    intro items r h
    simp [parseSetBody] at h
    simp [← h.2]
  | case3 a rest2 ha =>
    intro items r h
    simp [parseSetBody] at h
    simp [← h.2]
    omega
  | case4 a b rest2 ha hb items0 r0 hrec ih =>
    intro items r h
    simp only [parseSetBody, if_neg hb, hrec] at h
    simp at h
    have hlen := ih items0 r0 hrec
    rw [← h.2]
    simp
    omega
  | case5 a b rest2 ha hb hrec =>
    intro items r h
    simp only [parseSetBody, if_neg hb, hrec] at h
    simp at h
  | case6 a rest ha hne items0 r0 hrec ih =>
    intro items r h
    have hlen := ih items0 r0 hrec
    rw [parseSetBody.eq_def] at h
    split at h <;> simp_all
    omega
  | case7 a rest ha hne hrec =>
    intro items r h
    rw [parseSetBody.eq_def] at h
    split at h <;> simp_all

theorem parseSet_length (cs : List Char) (neg : Bool) (items : List SetItem)
    (r : List Char) (h : parseSet cs = some (neg, items, r)) :
    r.length < cs.length + 1 := by
  unfold parseSet at h
  rcases hrec : parseSetBody (splitLeadBracket (splitNeg cs).2).2 with _ | ⟨items0, r0⟩ <;>
    rw [hrec] at h
  · exact absurd h (by simp)
  · simp at h
    have h1 := parseSetBody_length _ _ _ hrec
    have h2 := splitLeadBracket_length (splitNeg cs).2
    have h3 := splitNeg_length cs
    rw [← h.2.2]
    omega

/-- Compile a glob pattern into tokens, mirroring fnmatch.translate: star and
question mark are wildcards, a bracket opens a set, and an unterminated set
leaves the opening bracket as a literal character. -/
def tokenize : List Char → List GlobTok
  | [] => []
  | '*' :: r => GlobTok.star :: tokenize r
  | '?' :: r => GlobTok.any :: tokenize r
  | '[' :: r =>
    match h : parseSet r with
    | some (neg, items, rest) => GlobTok.set neg items :: tokenize rest
    | none => GlobTok.lit '[' :: tokenize r
  | c :: r => GlobTok.lit c :: tokenize r
termination_by cs => cs.length
decreasing_by
  all_goals simp_wf
  exact parseSet_length _ _ _ _ h

/-- Membership of a character in one bracket-set element. -/
def matchSetItem (c : Char) : SetItem → Bool
  | SetItem.chr d => c == d
  | SetItem.rng a b => a ≤ c && c ≤ b

/-- Membership of a character in a bracket set, honouring negation. -/
def matchSet (neg : Bool) (items : List SetItem) (c : Char) : Bool :=
  if neg then !(items.any (matchSetItem c)) else items.any (matchSetItem c)

/-- Match a compiled glob pattern against a string, with the semantics of
the regex produced by fnmatch.translate: the whole string must match, and
star matches any sequence of characters including the path separator. -/
def tokMatch : List GlobTok → List Char → Bool
  | [], [] => true
  | [], _ :: _ => false
  | GlobTok.star :: ts, s =>
    tokMatch ts s ||
      (match s with
       | [] => false
       | _ :: cs => tokMatch (GlobTok.star :: ts) cs)
  | GlobTok.any :: ts, _ :: cs => tokMatch ts cs
  | GlobTok.any :: _, [] => false
  | GlobTok.lit c :: ts, d :: cs => c == d && tokMatch ts cs
  | GlobTok.lit _ :: _, [] => false
  | GlobTok.set neg items :: ts, d :: cs => matchSet neg items d && tokMatch ts cs
  | GlobTok.set _ _ :: _, [] => false
termination_by ts s => (ts.length, s.length)

/-- Embedding of Python fnmatch.fnmatch on a POSIX system, where
os.path.normcase is the identity, so matching is case-sensitive. -/
def fnmatch (name pat : String) : Bool :=
  tokMatch (tokenize pat.data) name.data

/-- Embedding of Policy.matchContent (ghascompliance/policy.py) and of the
identical Checker.matchContent (ghascompliance/checks/checker.py): the loop
returns true as soon as fnmatch.filter of the single candidate against one
validator pattern is non-empty, and false when the validator list runs out. -/
def matchContent (name : String) : List String → Bool
  | [] => false
  | validator :: rest =>
    if fnmatch name validator then true else matchContent name rest

/-- Embedding of SeverityLevelEnum from ghascompliance/policies/severities.py
(the same enum appears in ghascompliance/policies/models/severities.py).
Constructors are listed in the declaration order of the Python enum, which
is the iteration order used by getAllSeverities. -/
inductive SeverityLevelEnum where
  | CRITICAL
  | HIGH
  | ERROR
  | ERRORS
  | MEDIUM
  | MODERATE
  | LOW
  | WARNING
  | WARNINGS
  | NOTE
  | NOTES
  | ALL
  | NONE
  deriving DecidableEq, Repr

/-- The value string of each SeverityLevelEnum member. -/
def SeverityLevelEnum.value : SeverityLevelEnum → String
  | CRITICAL => "critical"
  | HIGH => "high"
  | ERROR => "error"
  | ERRORS => "errors"
  | MEDIUM => "medium"
  | MODERATE => "moderate"
  | LOW => "low"
  | WARNING => "warning"
  | WARNINGS => "warnings"
  | NOTE => "note"
  | NOTES => "notes"
  | ALL => "all"
  | NONE => "none"

/-- The members of the Python enum in declaration order. -/
def SeverityLevelEnum.members : List SeverityLevelEnum :=
  [CRITICAL, HIGH, ERROR, ERRORS, MEDIUM, MODERATE, LOW, WARNING, WARNINGS,
   NOTE, NOTES, ALL, NONE]

/-- Embedding of SeverityLevelEnum.getAllSeverities: iterate the enum in
declaration order, skipping ALL and NONE unless include_misc is set, and
collect the value strings. -/
def SeverityLevelEnum.getAllSeverities (include_misc : Bool) : List String :=
  ((SeverityLevelEnum.members.filter
      (fun item => include_misc || !(item = ALL || item = NONE))).map
    SeverityLevelEnum.value)

/-- Embedding of the Python list.index method, which raises ValueError when
the element is absent. When the element is present it returns the index of
its first occurrence. -/
def pyIndex (l : List String) (x : String) : Except PyErr Nat :=
  if x ∈ l then Except.ok (l.findIdx (fun y => y == x)) else Except.error PyErr.valueError

/-- Embedding of SeverityLevelEnum.getSeveritiesFromName: the label none
gives the empty list and all gives the full list; otherwise the higher
grouping truncates the full list after the label, the lower grouping drops
everything before it, and any other grouping yields the empty list. The
label lookup uses list.index and therefore raises ValueError for a label
that is not a member value. -/
def SeverityLevelEnum.getSeveritiesFromName (severity grouping : String) :
    Except PyErr (List String) :=
  let severities := SeverityLevelEnum.getAllSeverities false
  if severity = "none" then Except.ok []
  else if severity = "all" then Except.ok severities
  else if grouping = "higher" then do
    let i ← pyIndex severities severity
    Except.ok (severities.take (i + 1))
  else if grouping = "lower" then do
    let i ← pyIndex severities severity
    Except.ok (severities.drop i)
  else Except.ok []

/-- Modelled from the spec: the ordered severity list
ghascompliance.consts.SEVERITIES, whose defining file consts.py is not among
the sources. Section 3 of the spec gives the canonical descending order
critical, high, error, medium, moderate, low, warning, note. -/
def SEVERITIES : List String :=
  ["critical", "high", "error", "medium", "moderate", "low", "warning", "note"]

namespace Policy

/-- Embedding of Policy._buildSeverityList (ghascompliance/policy.py): an
empty severity raises, none maps to the empty list, all maps to the full
SEVERITIES list, a known severity maps to the prefix of SEVERITIES up to and
including it, and an unknown severity maps to the empty list with a logged
warning. The input is lower-cased first. -/
def _buildSeverityList (severity : String) : Except PyErr (List String) :=
  if severity = "" then Except.error (PyErr.exception "severity is set to None/Null")
  else
    let severity := pyLower severity
    if severity = "none" then Except.ok []
    else if severity = "all" then Except.ok SEVERITIES
    else if severity ∈ SEVERITIES then
      Except.ok (SEVERITIES.take (SEVERITIES.findIdx (fun y => y == severity) + 1))
    else Except.ok []

end Policy

/-- Embedding of a Python dict.get for string-keyed integer tables such as
the remediate section; dict iteration order is insertion order, so a dict is
embedded as an association list without duplicate keys. -/
def dictGet (l : List (String × Int)) (k : String) : Option Int :=
  (l.find? (fun p => p.1 == k)).map (fun p => p.2)

namespace Policy

/-- Loop of the no-direct-entry branch of Policy.checkViolationRemediation:
iterate the remediate table in insertion order; for each key expand it with
_buildSeverityList and, when the severity falls in the expansion, add the
day count to the creation time and compare against today, returning on the
first elapsed match. Adding a timedelta to a creation time of None raises
TypeError at exactly the point the source would. -/
def remediateLoop (today : Int) (severity : String) (creation_time : Option Int) :
    List (String × Int) → Except PyErr Bool
  | [] => Except.ok false
  | (remediate_severity, remediate_delta) :: rest => do
    let lst ← _buildSeverityList remediate_severity
    if severity ∈ lst then
      match creation_time with
      | none => Except.error PyErr.typeError
      | some t =>
        if today > t + remediate_delta then Except.ok true
        else remediateLoop today severity creation_time rest
    else remediateLoop today severity creation_time rest

/-- Embedding of Policy.checkViolationRemediation (ghascompliance/policy.py).
The guard of the direct branch is the Python truthiness of both the creation
time and the table entry, so a missing creation time or a zero-day entry
falls through to the key-expansion loop. Dates are day-granular integers and
today is the current date truncated to midnight. -/
def checkViolationRemediation (today : Int) (severity : String)
    (remediate : List (String × Int)) (creation_time : Option Int) :
    Except PyErr Bool :=
  match creation_time, dictGet remediate severity with
  | some t, some n =>
    if n ≠ 0 then Except.ok (decide (today > t + n))
    else remediateLoop today severity creation_time remediate
  | _, _ => remediateLoop today severity creation_time remediate

end Policy

/-- Embedding of one technology section of the dict-shaped policy built by
Policy.loadPolicy: the level string, the remediate table and the ids and
names of the conditions, warnings and ignores blocks. A missing block is the
empty list, matching the get with default used by the source. -/
structure PolicySection where
  level : Option String := none
  remediate : List (String × Int) := []
  conditions_ids : List String := []
  conditions_names : List String := []
  warnings_ids : List String := []
  warnings_names : List String := []
  ignores_ids : List String := []
  ignores_names : List String := []
  deriving DecidableEq, Repr

/-- Embedding of the state of a Policy instance read by the evaluation
methods: the dict-shaped policy mapping technology names to sections
(insertion-ordered association list; an absent or empty section dict is
represented by an absent key, which the evaluation code cannot distinguish)
and the default severities list built from the risk level at construction. -/
structure PolicyRepr where
  policy : List (String × PolicySection) := []
  severities : List String := []
  deriving DecidableEq, Repr

/-- The section of a technology: Python self.policy.get(technology). -/
def sectionGet (self : PolicyRepr) (technology : String) : Option PolicySection :=
  (self.policy.find? (fun p => p.1 == technology)).map (fun p => p.2)

/-- Python truthiness of self.policy.get(technology, default).get("level"):
some level string that is non-empty. -/
def levelTruthy (sec : Option PolicySection) : Option String :=
  match sec with
  | some s =>
    match s.level with
    | some lv => if lv = "" then none else some lv
    | none => none
  | none => none

/-- Python truthiness of self.policy.get(technology, default).get("remediate"):
a present, non-empty remediate table. -/
def remediateTruthy (sec : Option PolicySection) : Option (List (String × Int)) :=
  match sec with
  | some s => if s.remediate = [] then none else some s.remediate
  | none => none

namespace Policy

/-- The names loop of Policy.checkViolationAgainstPolicy: each alert name is
lower-cased and matched first against the lower-cased ignores names, which
returns false, then against the lower-cased conditions names, which returns
true; otherwise the loop continues. The result none means the loop fell
through without returning. -/
def namesLoop (sec : PolicySection) : List String → Option Bool
  | [] => none
  | n :: rest =>
    let check_name := pyLower n
    if matchContent check_name (sec.ignores_names.map pyLower) then some false
    else if matchContent check_name (sec.conditions_names.map pyLower) then some true
    else namesLoop sec rest

/-- The ids loop of Policy.checkViolationAgainstPolicy, identical to the
names loop but over the ids blocks, and run only after the names loop fell
through. -/
def idsLoop (sec : PolicySection) : List String → Option Bool
  | [] => none
  | i :: rest =>
    let check_id := pyLower i
    if matchContent check_id (sec.ignores_ids.map pyLower) then some false
    else if matchContent check_id (sec.conditions_ids.map pyLower) then some true
    else idsLoop sec rest

/-- Embedding of Policy.checkViolationAgainstPolicy (ghascompliance/policy.py).
With a non-empty technology the section loops may return early; otherwise a
truthy section level is expanded with _buildSeverityList, the local variable
level then forces the full SEVERITIES list when it is all and the empty list
when it is none, and the lower-cased severity is tested for membership.
When no truthy level exists the local level keeps its initial value all, so
the severity is tested against the full SEVERITIES list; the same happens
for an empty technology because the final level test overwrites the
severities taken from self. -/
def checkViolationAgainstPolicy (self : PolicyRepr) (severity technology : String)
    (names ids : List String) : Except PyErr Bool :=
  if technology = "" then Except.ok (decide (severity ∈ SEVERITIES))
  else
    let sec := sectionGet self technology
    let early : Option Bool :=
      match sec with
      | some s => (namesLoop s names).orElse (fun _ => idsLoop s ids)
      | none => none
    match early with
    | some b => Except.ok b
    | none =>
      match levelTruthy sec with
      | some level => do
        let sevs ← _buildSeverityList level
        let sevs := if level = "all" then SEVERITIES
                    else if level = "none" then [] else sevs
        Except.ok (decide (severity ∈ sevs))
      | none => Except.ok (decide (severity ∈ SEVERITIES))

/-- Embedding of Policy.checkViolation (ghascompliance/policy.py). The
severity is lower-cased; an empty technology raises; a technology section
with a truthy remediate table routes through checkViolationRemediation and,
when the section also has a truthy level, conjoins (with Python
short-circuit) the policy check; a truthy policy dict without remediate
routes through checkViolationAgainstPolicy; the final fallback answers from
the none and all shortcuts or membership in the severities built at
construction time. -/
def checkViolation (self : PolicyRepr) (today : Int) (severity technology : String)
    (names ids : List String) (creation_time : Option Int) : Except PyErr Bool :=
  let severity := pyLower severity
  if technology = "" then Except.error (PyErr.exception "Technology is set to None")
  else
    match remediateTruthy (sectionGet self technology) with
    | some remediate_policy => do
      let violation_remediation ←
        checkViolationRemediation today severity remediate_policy creation_time
      match levelTruthy (sectionGet self technology) with
      | some _ =>
        if violation_remediation then
          checkViolationAgainstPolicy self severity technology names ids
        else Except.ok false
      | none => Except.ok violation_remediation
    | none =>
      if self.policy ≠ [] then
        checkViolationAgainstPolicy self severity technology names ids
      else if severity = "none" then Except.ok false
      else if severity = "all" then Except.ok true
      else Except.ok (decide (severity ∈ self.severities))

end Policy

namespace Checker

/-- Embedding of Checker.checkViolationAgainstPolicy
(ghascompliance/checks/checker.py). The module of the Checker class does
not import SEVERITIES and the class does not define _buildSeverityList: every
path that falls through the names and ids loops raises: a truthy section
level reaches self._buildSeverityList and raises AttributeError, and
otherwise the local level keeps its initial value all and the final test
reaches the unbound name SEVERITIES, raising NameError; the empty-technology
branch reaches the same unbound SEVERITIES. Only the early returns of the
loops complete normally. The self policy is handled by the source as the
dict shape of the legacy Policy class, embedded as in PolicyRepr. -/
def checkViolationAgainstPolicy (policy : List (String × PolicySection))
    (severities : List String) (severity technology : String)
    (names ids : List String) : Except PyErr Bool :=
  if technology = "" then Except.error (PyErr.nameError "SEVERITIES")
  else
    let sec := (policy.find? (fun p => p.1 == technology)).map (fun p => p.2)
    let early : Option Bool :=
      match sec with
      | some s => (Policy.namesLoop s names).orElse (fun _ => Policy.idsLoop s ids)
      | none => none
    match early with
    | some b => Except.ok b
    | none =>
      match levelTruthy sec with
      | some _ => Except.error (PyErr.attributeError "_buildSeverityList")
      | none => Except.error (PyErr.nameError "SEVERITIES")

/-- Embedding of Checker.checkViolation (ghascompliance/checks/checker.py).
A technology section with a truthy remediate table immediately reaches
Octokit.debug, and Octokit is not imported by the module, so the branch
raises NameError before any remediation logic runs. The no-policy fallback
returns on the none and all shortcuts but reaches the unbound name
SEVERITIES for every other severity. -/
def checkViolation (policy : List (String × PolicySection))
    (severities : List String) (severity technology : String)
    (names ids : List String) (creation_time : Option Int) : Except PyErr Bool :=
  let severity := pyLower severity
  if technology = "" then Except.error (PyErr.exception "Technology is set to None")
  else
    match remediateTruthy
        ((policy.find? (fun p => p.1 == technology)).map (fun p => p.2)) with
    | some _ => Except.error (PyErr.nameError "Octokit")
    | none =>
      if policy ≠ [] then
        checkViolationAgainstPolicy policy severities severity technology names ids
      else if severity = "none" then Except.ok false
      else if severity = "all" then Except.ok true
      else Except.error (PyErr.nameError "SEVERITIES")

end Checker

/-- Embedding of PolicyState (ghascompliance/policies/state.py): four lists
of recorded decisions, each entry a message and a trigger label. -/
structure PolicyState where
  name : String
  criticals : List (String × String) := []
  errors : List (String × String) := []
  warnings : List (String × String) := []
  ignored : List (String × String) := []
  deriving DecidableEq, Repr

/-- PolicyState.critical appends a critical decision. -/
def PolicyState.critical (s : PolicyState) (msg trigger_name : String) : PolicyState :=
  { s with criticals := s.criticals ++ [(msg, trigger_name)] }

/-- PolicyState.error appends an error decision. -/
def PolicyState.error (s : PolicyState) (msg trigger_name : String) : PolicyState :=
  { s with errors := s.errors ++ [(msg, trigger_name)] }

/-- PolicyState.warning appends a warning decision. -/
def PolicyState.warning (s : PolicyState) (msg trigger_name : String) : PolicyState :=
  { s with warnings := s.warnings ++ [(msg, trigger_name)] }

/-- PolicyState.ignore appends an ignored decision. -/
def PolicyState.ignore (s : PolicyState) (msg trigger_name : String) : PolicyState :=
  { s with ignored := s.ignored ++ [(msg, trigger_name)] }

/-- The fields of a ghastoolkit SecretAlert read by the secret scanning
checker. -/
structure SecretAlert where
  number : Nat
  secret_type : String
  secret_type_display_name : String
  deriving DecidableEq, Repr

/-- Embedding of the SecretScanningPolicy dataclass
(ghascompliance/policies/base.py) with its field defaults; the default
severity of secret scanning is ALL. -/
structure SecretScanningPolicy where
  enabled : Bool := true
  push_protection : Bool := false
  push_protection_warning : Bool := true
  severity : SeverityLevelEnum := SeverityLevelEnum.ALL
  ids : List String := []
  ids_warnings : List String := []
  ids_ignores : List String := []
  names : List String := []
  deriving DecidableEq, Repr

namespace SecretScanningChecker

/-- SecretScanningChecker.error builds the unresolved-secret message, adds
the alert number when debugging is enabled in the Octokit singleton, and
records an error decision. -/
def error (debugging : Bool) (state : PolicyState) (alert : SecretAlert)
    (trigger_name : String) : PolicyState :=
  let err := "Unresolved Secret :: " ++ alert.secret_type
  let err := if debugging then err ++ " (" ++ toString alert.number ++ ")" else err
  state.error err trigger_name

/-- SecretScanningChecker.warning records a warning decision with the
unresolved-secret message. -/
def warning (state : PolicyState) (alert : SecretAlert)
    (trigger_name : String) : PolicyState :=
  state.warning ("Unresolved Secret :: " ++ alert.secret_type) trigger_name

/-- Embedding of SecretScanningChecker.checkSecretScanningAlert
(ghascompliance/checks/secretscanning.py). The checks run in source order:
the severity-all shortcut first, then the ignore ids, the warning ids, the
condition ids and finally the display names; the first match records its
decision and returns, and a fully unmatched alert leaves the state
unchanged. -/
def checkSecretScanningAlert (debugging : Bool) (state : PolicyState)
    (policy : SecretScanningPolicy) (alert : SecretAlert) : PolicyState :=
  if policy.severity.value = "all" then
    error debugging state alert "severity-all"
  else if matchContent alert.secret_type policy.ids_ignores then
    state.ignore "ignore alert" "id-match"
  else if matchContent alert.secret_type policy.ids_warnings then
    warning state alert "id-match"
  else if matchContent alert.secret_type policy.ids then
    error debugging state alert "id-match"
  else if matchContent alert.secret_type_display_name policy.names then
    error debugging state alert "name-match"
  else state

end SecretScanningChecker

/-- C1: evaluation of checkSecretScanningAlert at the failing input: the
default secret scanning policy, whose severity is ALL, with the ignore
id-list ["aws"], against an alert whose secret type is aws. The severity-all
shortcut runs before the ignore check, so the checker records an errored
decision with trigger severity-all and no ignored decision, although the
repository test test_check_ids_ignore expects an ignored decision with
trigger id-match for exactly this input. -/
theorem c1_ignore_lost_to_severity_all :
    (SecretScanningChecker.checkSecretScanningAlert false
        { name := "Secret Scanning" }
        ({ ids_ignores := ["aws"] } : SecretScanningPolicy)
        ({ number := 0, secret_type := "aws",
           secret_type_display_name := "AWS" } : SecretAlert)).ignored = []
    ∧ (SecretScanningChecker.checkSecretScanningAlert false
        { name := "Secret Scanning" }
        ({ ids_ignores := ["aws"] } : SecretScanningPolicy)
        ({ number := 0, secret_type := "aws",
           secret_type_display_name := "AWS" } : SecretAlert)).errors =
      [("Unresolved Secret :: aws", "severity-all")] := by
  constructor <;> rfl

/-- C2: for every alert and state, when the severity threshold of a secret
scanning rule is all, checkSecretScanningAlert records exactly one errored
decision with trigger label severity-all and touches no other decision list,
regardless of the id and name lists of the rule. -/
theorem c2_severity_all_shortcut (debugging : Bool) (state : PolicyState)
    (policy : SecretScanningPolicy) (alert : SecretAlert)
    (h : policy.severity = SeverityLevelEnum.ALL) :
    (∃ msg, (SecretScanningChecker.checkSecretScanningAlert debugging state
        policy alert).errors = state.errors ++ [(msg, "severity-all")])
    ∧ (SecretScanningChecker.checkSecretScanningAlert debugging state
        policy alert).ignored = state.ignored
    ∧ (SecretScanningChecker.checkSecretScanningAlert debugging state
        policy alert).warnings = state.warnings
    ∧ (SecretScanningChecker.checkSecretScanningAlert debugging state
        policy alert).criticals = state.criticals := by
  have hv : policy.severity.value = "all" := by rw [h]; rfl
  refine ⟨⟨if debugging then
      "Unresolved Secret :: " ++ alert.secret_type ++ " (" ++ toString alert.number ++ ")"
    else "Unresolved Secret :: " ++ alert.secret_type, ?_⟩, ?_, ?_, ?_⟩ <;>
    simp [SecretScanningChecker.checkSecretScanningAlert, hv,
      SecretScanningChecker.error, PolicyState.error] <;>
    cases debugging <;> simp

/-- C2 witness: the severity-all shortcut at a concrete policy and alert. -/
theorem c2_severity_all_shortcut_witness :
    (∃ msg, (SecretScanningChecker.checkSecretScanningAlert false
        { name := "Secret Scanning" }
        ({ ids := ["aws"] } : SecretScanningPolicy)
        ({ number := 3, secret_type := "aws",
           secret_type_display_name := "AWS" } : SecretAlert)).errors =
      [] ++ [(msg, "severity-all")]) :=
  (c2_severity_all_shortcut false { name := "Secret Scanning" }
    ({ ids := ["aws"] } : SecretScanningPolicy)
    ({ number := 3, secret_type := "aws",
       secret_type_display_name := "AWS" } : SecretAlert) rfl).1

/-- C3 counterexample: the canonical ordered severity list of the source,
SeverityLevelEnum.getAllSeverities, is not the eight-member list of the
claim: it has eleven members and contains the alternative spelling errors
as a member of its own. -/
theorem c3_counterexample :
    SeverityLevelEnum.getAllSeverities false ≠
      ["critical", "high", "error", "medium", "moderate", "low", "warning", "note"]
    ∧ "errors" ∈ SeverityLevelEnum.getAllSeverities false
    ∧ (SeverityLevelEnum.getAllSeverities false).length = 11 := by
  refine ⟨by decide, by decide, by decide⟩

/-- C3 amended: the canonical ordered severity list contains exactly the
eleven members critical, high, error, errors, medium, moderate, low,
warning, warnings, note, notes in that descending order; alternative
spellings are distinct adjacent members with ranks of their own rather than
aliases, as the differing expansions of error and errors show, and with the
misc flag the pseudo-levels all and none are appended. -/
theorem c3_canonical_list :
    SeverityLevelEnum.getAllSeverities false =
      ["critical", "high", "error", "errors", "medium", "moderate", "low",
       "warning", "warnings", "note", "notes"]
    ∧ SeverityLevelEnum.getAllSeverities true =
      ["critical", "high", "error", "errors", "medium", "moderate", "low",
       "warning", "warnings", "note", "notes", "all", "none"]
    ∧ SeverityLevelEnum.getSeveritiesFromName "error" "higher" =
      Except.ok ["critical", "high", "error"]
    ∧ SeverityLevelEnum.getSeveritiesFromName "errors" "higher" =
      Except.ok ["critical", "high", "error", "errors"] := by
  refine ⟨by decide, by decide, by rfl, by rfl⟩

/-- C4: for every threshold that is a member of the severity taxonomy, the
at-or-above expansion is the contiguous prefix of the canonical ordered list
up to and including the threshold, both for the enum-based
getSeveritiesFromName over its eleven-member list and for the legacy
_buildSeverityList over SEVERITIES; the expansion of all is the full list
and the expansion of none is the empty list in both. -/
theorem c4_at_or_above_expansion (t u : String)
    (ht : t ∈ SeverityLevelEnum.getAllSeverities false)
    (hu : u ∈ SEVERITIES) :
    (SeverityLevelEnum.getSeveritiesFromName t "higher" =
      Except.ok ((SeverityLevelEnum.getAllSeverities false).take
        ((SeverityLevelEnum.getAllSeverities false).findIdx (fun y => y == t) + 1))
     ∧ ((SeverityLevelEnum.getAllSeverities false).take
        ((SeverityLevelEnum.getAllSeverities false).findIdx (fun y => y == t) + 1)).getLast?
       = some t)
    ∧ SeverityLevelEnum.getSeveritiesFromName "all" "higher" =
      Except.ok (SeverityLevelEnum.getAllSeverities false)
    ∧ SeverityLevelEnum.getSeveritiesFromName "none" "higher" = Except.ok []
    ∧ (Policy._buildSeverityList u =
      Except.ok (SEVERITIES.take (SEVERITIES.findIdx (fun y => y == u) + 1))
     ∧ (SEVERITIES.take (SEVERITIES.findIdx (fun y => y == u) + 1)).getLast? = some u)
    ∧ Policy._buildSeverityList "all" = Except.ok SEVERITIES
    ∧ Policy._buildSeverityList "none" = Except.ok [] := by
  refine ⟨?_, by rfl, by rfl, ?_, by decide, by decide⟩
  · fin_cases ht <;> exact ⟨by decide, by decide⟩
  · fin_cases hu <;> exact ⟨by decide, by decide⟩

/-- C4 witness: the expansions at the thresholds moderate and low. -/
theorem c4_at_or_above_expansion_witness :
    SeverityLevelEnum.getSeveritiesFromName "moderate" "higher" =
      Except.ok ((SeverityLevelEnum.getAllSeverities false).take
        ((SeverityLevelEnum.getAllSeverities false).findIdx (fun y => y == "moderate") + 1))
    ∧ Policy._buildSeverityList "low" =
      Except.ok (SEVERITIES.take (SEVERITIES.findIdx (fun y => y == "low") + 1)) :=
  ⟨(c4_at_or_above_expansion "moderate" "low" (by decide) (by decide)).1.1,
   (c4_at_or_above_expansion "moderate" "low" (by decide) (by decide)).2.2.2.1.1⟩

/-- C5 counterexample: the enum-based at-or-above expansion raises
ValueError for the unknown threshold label unknown instead of returning the
empty list, and the legacy expansion raises for the empty label, so the
claim that no unknown label raises is false. -/
theorem c5_counterexample :
    SeverityLevelEnum.getSeveritiesFromName "unknown" "higher" =
      Except.error PyErr.valueError
    ∧ Policy._buildSeverityList "" =
      Except.error (PyErr.exception "severity is set to None/Null") := by
  constructor <;> rfl

/-- C5 amended: for every threshold label that is not all, not none and not
a member of the taxonomy, the legacy expansion _buildSeverityList returns
the empty list without raising provided the label is non-empty (the empty
label raises), while the enum-based expansion getSeveritiesFromName raises
ValueError for every such label. -/
theorem c5_unknown_threshold (t : String)
    (h0 : t ≠ "")
    (h1 : pyLower t ≠ "all") (h2 : pyLower t ≠ "none")
    (h3 : pyLower t ∉ SEVERITIES)
    (h4 : t ≠ "all") (h5 : t ≠ "none")
    (h6 : t ∉ SeverityLevelEnum.getAllSeverities false) :
    Policy._buildSeverityList t = Except.ok []
    ∧ SeverityLevelEnum.getSeveritiesFromName t "higher" =
      Except.error PyErr.valueError := by
  constructor
  · simp [Policy._buildSeverityList, h0, h1, h2, h3]
  · simp [SeverityLevelEnum.getSeveritiesFromName, h4, h5, pyIndex, h6]
    rfl

/-- C5 witness: the unknown threshold label unknown. -/
theorem c5_unknown_threshold_witness :
    Policy._buildSeverityList "unknown" = Except.ok []
    ∧ SeverityLevelEnum.getSeveritiesFromName "unknown" "higher" =
      Except.error PyErr.valueError :=
  c5_unknown_threshold "unknown" (by decide) (by decide) (by decide) (by decide)
    (by decide) (by decide) (by decide)

/-- C6 counterexample: a remediation table with a direct zero-day entry for
the severity is treated as having no direct entry, because the Python guard
tests the truthiness of the looked-up value and 0 is falsy; for a severity
outside the taxonomy the fallback loop then matches nothing, so the check
returns false although today is strictly after the creation date plus zero
days. -/
theorem c6_counterexample :
    Policy.checkViolationRemediation 1000 "customsev" [("customsev", 0)]
      (some 990) = Except.ok false
    ∧ ((1000 : Int) > 990 + 0) := by
  constructor <;> decide

/-- C6 amended: for every creation time, severity and remediation table with
a direct non-zero entry of N days for that severity, the remediation check
returns true exactly when today is strictly after the creation date plus N
days; in particular a creation ten days back with five-day remediation has
elapsed, while a creation today or exactly five days back has not. A
zero-day entry is falsy in Python and is treated as if the direct entry were
absent. -/
theorem c6_direct_entry (today : Int) (severity : String)
    (remediate : List (String × Int)) (n t : Int)
    (hget : dictGet remediate severity = some n) (hn : n ≠ 0) :
    Policy.checkViolationRemediation today severity remediate (some t) =
      Except.ok (decide (today > t + n)) := by
  unfold Policy.checkViolationRemediation
  rw [hget]
  simp [hn]

/-- C6 witness: with a five-day direct entry, a creation ten days back has
elapsed and creations today and exactly five days back have not. -/
theorem c6_direct_entry_witness :
    Policy.checkViolationRemediation 1000 "error" [("error", 5)] (some 990) =
      Except.ok true
    ∧ Policy.checkViolationRemediation 1000 "error" [("error", 5)] (some 1000) =
      Except.ok false
    ∧ Policy.checkViolationRemediation 1000 "error" [("error", 5)] (some 995) =
      Except.ok false :=
  ⟨c6_direct_entry 1000 "error" [("error", 5)] 5 990 (by decide) (by decide),
   c6_direct_entry 1000 "error" [("error", 5)] 5 1000 (by decide) (by decide),
   c6_direct_entry 1000 "error" [("error", 5)] 5 995 (by decide) (by decide)⟩

/-- C7: evaluation of checkViolationRemediation at the failing input: with
an absent creation time the falsy guard routes into the key-expansion loop,
whose first key error covers the severity error, and the loop then adds a
timedelta to the absent creation time, raising TypeError instead of
returning false as the claim and the spec require. -/
theorem c7_none_creation_raises :
    Policy.checkViolationRemediation 1000 "error" [("error", 5)] none =
      Except.error PyErr.typeError := by
  decide

/-- C8: when the resolved technology section has a truthy remediate table,
checkViolation routes through the remediation check; if the section also has
a truthy level the result is the conjunction of the remediation result and
the severity/id/name policy check (evaluated with Python short-circuit), and
with no truthy level the remediation result alone is returned. -/
theorem c8_remediation_overlay (self : PolicyRepr) (today : Int)
    (severity technology : String) (names ids : List String)
    (creation_time : Option Int) (rem : List (String × Int)) (b c : Bool)
    (hTech : technology ≠ "")
    (hRem : remediateTruthy (sectionGet self technology) = some rem)
    (hVR : Policy.checkViolationRemediation today (pyLower severity) rem
      creation_time = Except.ok b)
    (hCV : Policy.checkViolationAgainstPolicy self (pyLower severity) technology
      names ids = Except.ok c) :
    (levelTruthy (sectionGet self technology) ≠ none →
      Policy.checkViolation self today severity technology names ids
        creation_time = Except.ok (b && c))
    ∧ (levelTruthy (sectionGet self technology) = none →
      Policy.checkViolation self today severity technology names ids
        creation_time = Except.ok b) := by
  constructor
  · intro hlv
    unfold Policy.checkViolation
    simp only [if_neg hTech, hRem, hVR]
    cases hL : levelTruthy (sectionGet self technology) with
    | none => exact absurd hL hlv
    | some lv =>
      cases b with
      | true => simpa using hCV
      | false => rfl
  · intro hlv
    unfold Policy.checkViolation
    simp only [if_neg hTech, hRem, hVR, hlv]
    rfl

/-- C8 witness: a code scanning section with level error and a five-day
remediation table, evaluated on an error alert created ten days back, where
both the remediation check and the policy check hold. -/
theorem c8_remediation_overlay_witness :
    Policy.checkViolation
      ({ policy := [("codescanning",
          { level := some "error", remediate := [("error", 5)] })] } : PolicyRepr)
      1000 "error" "codescanning" [] [] (some 990) = Except.ok true :=
  (c8_remediation_overlay
    ({ policy := [("codescanning",
        { level := some "error", remediate := [("error", 5)] })] } : PolicyRepr)
    1000 "error" "codescanning" [] [] (some 990) [("error", 5)] true true
    (by decide) (by decide) (by decide) (by decide)).1 (by decide)

/-- C9 counterexample: the wildcard matcher is case-sensitive on a POSIX
system, where fnmatch normalises with the identity, so matching the
upper-case candidate PY/SQLI against the pattern py/star returns false,
although the claim requires true. -/
theorem c9_counterexample :
    matchContent "PY/SQLI" ["py/*"] = false := by
  simp [matchContent, fnmatch, tokenize, tokMatch, parseSet, parseSetBody,
    splitNeg, splitLeadBracket, matchSet, matchSetItem]

/-- C9 amended: the wildcard matcher is case-sensitive (POSIX fnmatch):
matching PY/SQLI against py/star is false while py/sqli matches, and
lower-casing both the candidate and the patterns before calling makes the
upper-case example match, which is how a call site that lower-cases both
sides, such as the loops of checkViolationAgainstPolicy, behaves
case-insensitively; call sites that pass raw strings, such as the secret
scanning checker, match case-sensitively. The matcher returns true exactly
when at least one pattern in the list glob-matches the candidate, and
returns false for the empty pattern list. -/
theorem c9_match_semantics :
    matchContent "py/sqli" ["py/*"] = true
    ∧ matchContent "PY/SQLI" ["py/*"] = false
    ∧ matchContent (pyLower "PY/SQLI") (["py/*"].map pyLower) = true
    ∧ (∀ name, matchContent name [] = false)
    ∧ (∀ name patterns, matchContent name patterns =
        patterns.any (fun p => fnmatch name p)) := by
  refine ⟨?_, ?_, ?_, fun name => rfl, ?_⟩
  · simp [matchContent, fnmatch, tokenize, tokMatch, parseSet, parseSetBody,
      splitNeg, splitLeadBracket, matchSet, matchSetItem]
  · simp [matchContent, fnmatch, tokenize, tokMatch, parseSet, parseSetBody,
      splitNeg, splitLeadBracket, matchSet, matchSetItem]
  · simp [matchContent, fnmatch, tokenize, tokMatch, parseSet, parseSetBody,
      splitNeg, splitLeadBracket, matchSet, matchSetItem, pyLower]
  · intro name patterns
    induction patterns with
    | nil => rfl
    | cons v rest ih =>
      by_cases h : fnmatch name v <;> simp [matchContent, h, ih]

/-- C10 counterexample: a call of Checker.checkViolation that reaches the
no-policy fallback with severity none completes normally and returns a
decision, so the claim that every call reaching the fallback raises is
false. -/
theorem c10_counterexample :
    Checker.checkViolation [] [] "none" "codescanning" [] [] none =
      Except.ok false
    ∧ Checker.checkViolation [] [] "all" "codescanning" [] [] none =
      Except.ok true := by
  constructor <;> rfl

/-- C10 amended: Checker.checkViolation raises NameError for Octokit on
every call whose technology section has a truthy remediation table; a call
reaching the no-policy fallback raises NameError for SEVERITIES unless the
lower-cased severity is none or all, which return false and true; and every
call that returns a decision either went through
checkViolationAgainstPolicy or hit the none or all fallback shortcuts. -/
theorem c10_checker_unbound_names :
    (∀ (policy : List (String × PolicySection)) (severities : List String)
        (severity technology : String) (names ids : List String)
        (creation_time : Option Int) (rem : List (String × Int)),
      technology ≠ "" →
      remediateTruthy ((policy.find? (fun p => p.1 == technology)).map
        (fun p => p.2)) = some rem →
      Checker.checkViolation policy severities severity technology names ids
        creation_time = Except.error (PyErr.nameError "Octokit"))
    ∧ (∀ (severities : List String) (severity technology : String)
        (names ids : List String) (creation_time : Option Int),
      technology ≠ "" → pyLower severity ≠ "none" → pyLower severity ≠ "all" →
      Checker.checkViolation [] severities severity technology names ids
        creation_time = Except.error (PyErr.nameError "SEVERITIES"))
    ∧ (∀ (severities : List String) (severity technology : String)
        (names ids : List String) (creation_time : Option Int),
      technology ≠ "" → pyLower severity = "none" →
      Checker.checkViolation [] severities severity technology names ids
        creation_time = Except.ok false)
    ∧ (∀ (severities : List String) (severity technology : String)
        (names ids : List String) (creation_time : Option Int),
      technology ≠ "" → pyLower severity = "all" →
      Checker.checkViolation [] severities severity technology names ids
        creation_time = Except.ok true)
    ∧ (∀ (policy : List (String × PolicySection)) (severities : List String)
        (severity technology : String) (names ids : List String)
        (creation_time : Option Int) (b : Bool),
      Checker.checkViolation policy severities severity technology names ids
        creation_time = Except.ok b →
      (policy ≠ [] ∧ Checker.checkViolationAgainstPolicy policy severities
        (pyLower severity) technology names ids = Except.ok b)
      ∨ (policy = [] ∧ ((pyLower severity = "none" ∧ b = false)
          ∨ (pyLower severity = "all" ∧ b = true)))) := by
  refine ⟨?_, ?_, ?_, ?_, ?_⟩
  · intro policy severities severity technology names ids creation_time rem hT hR
    simp [Checker.checkViolation, hT, hR]
  · intro severities severity technology names ids creation_time hT h1 h2
    simp [Checker.checkViolation, hT, h1, h2, remediateTruthy]
  · intro severities severity technology names ids creation_time hT h1
    simp [Checker.checkViolation, hT, h1, remediateTruthy]
  · intro severities severity technology names ids creation_time hT h1
    simp [Checker.checkViolation, hT, h1, remediateTruthy]
  · intro policy severities severity technology names ids creation_time b h
    by_cases hT : technology = ""
    · simp [Checker.checkViolation, hT] at h
    · by_cases hP : policy = []
      · subst hP
        right
        refine ⟨rfl, ?_⟩
        simp [Checker.checkViolation, hT, remediateTruthy] at h
        by_cases h1 : pyLower severity = "none"
        · simp [h1] at h
          exact Or.inl ⟨h1, h⟩
        · by_cases h2 : pyLower severity = "all"
          · simp [h1, h2] at h
            exact Or.inr ⟨h2, h⟩
          · simp [h1, h2] at h
      · left
        refine ⟨hP, ?_⟩
        rcases hR : remediateTruthy ((policy.find? (fun p => p.1 == technology)).map
            (fun p => p.2)) with _ | rem
        · simp [Checker.checkViolation, hT, hR, hP] at h
          exact h
        · simp [Checker.checkViolation, hT, hR] at h

/-- C10 witness: a code scanning section carrying a remediation table makes
Checker.checkViolation raise NameError for Octokit. -/
theorem c10_checker_unbound_names_witness :
    Checker.checkViolation
      [("codescanning", ({ remediate := [("error", 1)] } : PolicySection))]
      [] "error" "codescanning" [] [] none =
      Except.error (PyErr.nameError "Octokit") :=
  c10_checker_unbound_names.1
    [("codescanning", ({ remediate := [("error", 1)] } : PolicySection))]
    [] "error" "codescanning" [] [] none [("error", 1)] (by decide) (by decide)
